import Mathlib

/-!
Shallow embedding of the PDF-processing pipeline (src/app/main.py and
src/app/validators.py) and proofs of its specified properties.

External effects (filesystem queries, the `magic` sniffer, PyPDF2, and the
five extractor calls) are modelled by an explicit environment record whose
fields carry either the returned value or, as `Except.error`, the message of
the exception the call raised.  Python dictionaries whose key set varies at
run time are modelled as structures with `Option` fields (`none` = key
absent); `dict.get(k, d)` becomes `Option.getD`, a direct index `d[k]`
becomes the fallible `idx` below.
-/

namespace Pdfp1

/-- Result of `extract_text_and_structure`'s `structure` sub-dictionary:
keys `total_pages` and `headings`, each possibly absent. -/
structure Structure where
  total_pages : Option Nat := none
  headings : Option (List String) := none
deriving Repr, DecidableEq

/-- Dictionary returned by `extract_text_and_structure` (keys read with
`.get` in `process_pdf`, so each may be absent). -/
structure TextData where
  text : Option String := none
  structure_ : Option Structure := none
deriving Repr, DecidableEq

/-- One element of the list returned by `extract_images`.  Field values are
modelled by the string `str(v)` renders them to; an absent key is `none`. -/
structure ImageRecord where
  page : Option String := none
  size : Option String := none
  format : Option String := none
  description : Option String := none
deriving Repr, DecidableEq

/-- One element of the list returned by `extract_tables`; same conventions
as `ImageRecord`.  `content` is a string when present (the renderer's
`isinstance(content, str)` test). -/
structure TableRecord where
  page : Option String := none
  shape : Option String := none
  accuracy : Option String := none
  content : Option String := none
deriving Repr, DecidableEq

/-- Dictionary returned by `validate_pdf` (src/app/validators.py lines
12-58): `valid` always present, the other keys present depending on the
branch taken. -/
structure ValidationResult where
  valid : Bool
  error : Option String := none
  file_size : Option Nat := none
  num_pages : Option Nat := none
  has_text : Option Bool := none
deriving Repr, DecidableEq

/-- The `results` dictionary built by `process_pdf` (src/app/main.py lines
31-40 and 77-81).  `filename` and `processed_at` are present in every shape
the code constructs; every other key may be absent (`none`). -/
structure Results where
  filename : String
  processed_at : String
  text_content : Option String := none
  structure_ : Option Structure := none
  images : Option (List ImageRecord) := none
  tables : Option (List TableRecord) := none
  metadata : Option (List (String × String)) := none
  ocr_text : Option String := none
  error : Option String := none
deriving Repr, DecidableEq

/-- An exception raised by PyPDF2: either `PyPDF2.errors.PdfReadError` or
any other exception, with its message. -/
inductive PyErr where
  | pdfReadError (msg : String)
  | otherError (msg : String)
deriving Repr, DecidableEq

deriving instance DecidableEq for Except

/-- What a successful `PyPDF2.PdfReader(file)` exposes: the page count and
the outcome of `pages[0].extract_text()` (which may itself raise). -/
structure PdfData where
  num_pages : Nat
  extract_text : Except PyErr String
deriving Repr, DecidableEq

/-- Environment seen by `validate_pdf` for one path: the answers of
`os.path.exists`, `os.path.getsize` (may raise `OSError`),
`magic.from_file` (may raise when the sniffer is unavailable), and
opening the file with PyPDF2 (may raise). -/
structure FsEnv where
  path_exists : Bool
  getsize : Except String Nat
  magic_mime : Except String String
  open_result : Except PyErr PdfData
deriving Repr, DecidableEq

/-- MAX_FILE_SIZE from src/app/main.py line 17 and the `max_size` local of
src/app/validators.py line 17: 50 MiB. -/
def MAX_FILE_SIZE : Nat := 50 * 1024 * 1024

/-- Models Python's f-string `{bytes/(1024*1024):.1f}`: the size in MiB to
one decimal place (ideal-real rounding, ties to even; the double rounding a
binary float introduces at exact .x5 boundaries is not modelled). -/
def fmtMB1 (bytes : Nat) : String :=
  let num := bytes * 10
  let den := 1024 * 1024
  let q := num / den
  let r := num % den
  let tenths :=
    if den < 2 * r then q + 1
    else if 2 * r < den then q
    else if q % 2 = 0 then q else q + 1
  toString (tenths / 10) ++ "." ++ toString (tenths % 10)

/-- Models `file_path.lower().endswith('.pdf')` from
src/app/validators.py line 32: every character lowercased, then a suffix
test against `.pdf`. -/
def endsWithLowerPdf (file_path : String) : Bool :=
  List.isSuffixOf ['.', 'p', 'd', 'f'] (file_path.data.map Char.toLower)

/-- Models Python's `str.strip()` (src/app/validators.py line 57):
whitespace removed from both ends. -/
def pyStrip (s : String) : String :=
  String.mk (((s.data.dropWhile Char.isWhitespace).reverse.dropWhile
    Char.isWhitespace).reverse)

/-- Embedding of `validate_pdf` (src/app/validators.py lines 6-61).
The outer `try` catches the only remaining fallible call, `os.path.getsize`;
the sniffing `try` catches a `magic.from_file` fault and falls back to the
extension check; the PyPDF2 `try` maps `PdfReadError` and other exceptions
to their two messages. -/
def validate_pdf (fs : FsEnv) (file_path : String) : ValidationResult :=
  if !fs.path_exists then
    { valid := false, error := some "File does not exist" }
  else
    match fs.getsize with
    | .error e => { valid := false, error := some ("Validation error: " ++ e) }
    | .ok file_size =>
      if file_size = 0 then
        { valid := false, error := some "File is empty" }
      else if MAX_FILE_SIZE < file_size then
        { valid := false,
          error := some ("File too large: " ++ fmtMB1 file_size ++ "MB (max: 50MB)") }
      else
        let typeFail : Option ValidationResult :=
          match fs.magic_mime with
          | .ok file_type =>
            if file_type ≠ "application/pdf" then
              some { valid := false,
                     error := some ("Invalid file type: " ++ file_type ++ ". Expected PDF.") }
            else none
          | .error _ =>
            if !endsWithLowerPdf file_path then
              some { valid := false, error := some "File does not have .pdf extension" }
            else none
        match typeFail with
        | some r => r
        | none =>
          match fs.open_result with
          | .error (.pdfReadError e) =>
            { valid := false, error := some ("Corrupted PDF: " ++ e) }
          | .error (.otherError e) =>
            { valid := false, error := some ("PDF validation failed: " ++ e) }
          | .ok pdf =>
            if pdf.num_pages = 0 then
              { valid := false, error := some "PDF has no pages" }
            else
              match pdf.extract_text with
              | .error (.pdfReadError e) =>
                { valid := false, error := some ("Corrupted PDF: " ++ e) }
              | .error (.otherError e) =>
                { valid := false, error := some ("PDF validation failed: " ++ e) }
              | .ok text =>
                { valid := true,
                  file_size := some file_size,
                  num_pages := some pdf.num_pages,
                  has_text := some (decide (0 < (pyStrip text).length)) }

/-- Environment seen by one `process_pdf` invocation: the filesystem view
used by validation, the two `datetime.now()` timestamps (at initialization
and, should the fault handler run, at fault time), and the outcome of each
of the five extractor calls (`Except.error` = the extractor raised). -/
structure Env where
  fs : FsEnv
  now : String
  now_err : String
  text_structure : Except String TextData
  images : Except String (List ImageRecord)
  tables : Except String (List TableRecord)
  metadata : Except String (List (String × String))
  ocr : Except String String
deriving Repr, DecidableEq

/-- One extractor invocation, recording which extractor ran and the path it
was given; `process_pdf` returns the ordered list of these as its trace. -/
inductive ExtractorCall where
  | textStructure (path : String)
  | images (path : String)
  | tables (path : String)
  | metadata (path : String)
  | ocr (path : String)
deriving Repr, DecidableEq

/-- The `results` dictionary as initialized at src/app/main.py lines 31-40:
every content key present with its empty default, no `error` key. -/
def init_results (env : Env) (filename : String) : Results :=
  { filename := filename
    processed_at := env.now
    text_content := some ""
    structure_ := some {}
    images := some []
    tables := some []
    metadata := some []
    ocr_text := some "" }

/-- The dictionary built by the `except` handler at src/app/main.py lines
77-81: only `filename`, `error` and `processed_at` are present. -/
def failure_results (env : Env) (filename e : String) : Results :=
  { filename := filename
    processed_at := env.now_err
    error := some ("Processing failed: " ++ e) }

/-- Embedding of `process_pdf` (src/app/main.py lines 23-81), paired with
the trace of extractor invocations made.  Each extractor call is matched on
its `Except` outcome; an `Except.error` models the extractor raising, which
transfers control to the `except` handler. -/
def process_pdf (env : Env) (pdf_path filename : String) :
    Results × List ExtractorCall :=
  let results := init_results env filename
  let validation_result := validate_pdf env.fs pdf_path
  if validation_result.valid = false then
    ({ results with error := validation_result.error }, [])
  else
    match env.text_structure with
    | .error e => (failure_results env filename e, [.textStructure pdf_path])
    | .ok text_data =>
      let results := { results with
        text_content := some (text_data.text.getD "")
        structure_ := some (text_data.structure_.getD {}) }
      match env.images with
      | .error e =>
        (failure_results env filename e,
         [.textStructure pdf_path, .images pdf_path])
      | .ok images_data =>
        let results := { results with images := some images_data }
        match env.tables with
        | .error e =>
          (failure_results env filename e,
           [.textStructure pdf_path, .images pdf_path, .tables pdf_path])
        | .ok tables_data =>
          let results := { results with tables := some tables_data }
          match env.metadata with
          | .error e =>
            (failure_results env filename e,
             [.textStructure pdf_path, .images pdf_path, .tables pdf_path,
              .metadata pdf_path])
          | .ok metadata =>
            let results := { results with metadata := some metadata }
            match env.ocr with
            | .error e =>
              (failure_results env filename e,
               [.textStructure pdf_path, .images pdf_path, .tables pdf_path,
                .metadata pdf_path, .ocr pdf_path])
            | .ok ocr_text =>
              ({ results with ocr_text := some ocr_text },
               [.textStructure pdf_path, .images pdf_path, .tables pdf_path,
                .metadata pdf_path, .ocr pdf_path])

/-- The message of the first extractor fault `process_pdf` would encounter
in its fixed invocation order, if any. -/
def first_fault (env : Env) : Option String :=
  match env.text_structure with
  | .error e => some e
  | .ok _ =>
    match env.images with
    | .error e => some e
    | .ok _ =>
      match env.tables with
      | .error e => some e
      | .ok _ =>
        match env.metadata with
        | .error e => some e
        | .ok _ =>
          match env.ocr with
          | .error e => some e
          | .ok _ => none

/-- Direct dictionary indexing `d[k]`: raises `KeyError` when the key is
absent. -/
def idx {α : Type} : Option α → Except String α
  | some a => .ok a
  | none => .error "KeyError"

/-- Truthiness of `d.get(k)` for a string-valued key: `None` and the empty
string are falsy. -/
def truthyStr : Option String → Bool
  | some s => !s.isEmpty
  | none => false

/-- Truthiness of `d.get(k)` for a list- or dict-valued key: `None` and the
empty collection are falsy. -/
def truthyList {α : Type} : Option (List α) → Bool
  | some l => !l.isEmpty
  | none => false

/-- Truthiness of `results.get('structure')`: the dictionary is truthy iff
it has at least one key. -/
def truthyStruct : Option Structure → Bool
  | some s => s.total_pages.isSome || s.headings.isSome
  | none => false

/-- Models Python's `str.title()` for ASCII text: the first letter of each
alphabetic run is uppercased, the rest lowercased. -/
def pyTitle (s : String) : String :=
  String.mk (go s.data false)
where
  go : List Char → Bool → List Char
    | [], _ => []
    | c :: cs, prevAlpha =>
      if c.isAlpha then
        (if prevAlpha then c.toLower else c.toUpper) :: go cs true
      else
        c :: go cs false

/-- The banner rule `"=" * 80` of src/app/main.py lines 90 and 93. -/
def bar80 : String := String.mk (List.replicate 80 '=')

/-- The section rule `"-" * 40` used under every section header. -/
def dash40 : String := String.mk (List.replicate 40 '-')

/-- Header lines appended at src/app/main.py lines 90-94 before any other
output: banner, filename line, timestamp line, banner, blank line. -/
def headerLines (results : Results) : List String :=
  [bar80,
   "PDF PROCESSING RESULTS: " ++ results.filename,
   "Processed at: " ++ results.processed_at,
   bar80, ""]

/-- Metadata section, src/app/main.py lines 102-108: emitted only when
`results.get('metadata')` is truthy; each key-value pair with a truthy value
becomes one `Title: value` line. -/
def metadataSection (results : Results) : Except String (List String) :=
  if truthyList results.metadata then
    match idx results.metadata with
    | .error e => .error e
    | .ok md =>
      .ok (["DOCUMENT METADATA:", dash40] ++
        md.filterMap (fun kv =>
          if kv.2.isEmpty then none else some (pyTitle kv.1 ++ ": " ++ kv.2)) ++
        [""])
  else .ok []

/-- Structure section, src/app/main.py lines 111-121: emitted only when
`results.get('structure')` is truthy; the heading list is emitted whenever
the `headings` key is present, even when empty. -/
def structureSection (results : Results) : Except String (List String) :=
  if truthyStruct results.structure_ then
    match idx results.structure_ with
    | .error e => .error e
    | .ok st =>
      .ok (["DOCUMENT STRUCTURE:", dash40,
            "Total Pages: " ++
              (match st.total_pages with
               | some n => toString n
               | none => "Unknown")] ++
           (match st.headings with
            | some hs => "Headings Found:" :: hs.map (fun h => "  - " ++ h)
            | none => []) ++
           [""])
  else .ok []

/-- One image block, src/app/main.py lines 128-133; `i` is the 1-based
index from `enumerate(..., 1)`. -/
def imageBlock (i : Nat) (img : ImageRecord) : Except String (List String) :=
  let base := ["Image " ++ toString i ++ ":",
    "  Page: " ++ img.page.getD "Unknown",
    "  Size: " ++ img.size.getD "Unknown",
    "  Format: " ++ img.format.getD "Unknown"]
  if truthyStr img.description then
    match idx img.description with
    | .error e => .error e
    | .ok d => .ok (base ++ ["  Description: " ++ d])
  else .ok base

/-- Fold of fallible per-record blocks over a list, threading the 1-based
counter of `enumerate(..., 1)`. -/
def enumBlocks {α : Type} (f : Nat → α → Except String (List String)) :
    Nat → List α → Except String (List String)
  | _, [] => .ok []
  | i, x :: xs =>
    match f i x with
    | .error e => .error e
    | .ok b =>
      match enumBlocks f (i + 1) xs with
      | .error e => .error e
      | .ok rest => .ok (b ++ rest)

/-- Images section, src/app/main.py lines 124-134. -/
def imagesSection (results : Results) : Except String (List String) :=
  if truthyList results.images then
    match idx results.images with
    | .error e => .error e
    | .ok images =>
      match enumBlocks imageBlock 1 images with
      | .error e => .error e
      | .ok blocks => .ok (["EXTRACTED IMAGES:", dash40] ++ blocks ++ [""])
  else .ok []

/-- One table block, src/app/main.py lines 141-152: four header lines, then
a content summary when the `content` key is present, its preview cut to 200
characters plus `"..."` when longer. -/
def tableBlock (i : Nat) (tbl : TableRecord) : List String :=
  ["Table " ++ toString i ++ ":",
   "  Page: " ++ tbl.page.getD "Unknown",
   "  Dimensions: " ++ tbl.shape.getD "Unknown",
   "  Accuracy: " ++ tbl.accuracy.getD "Unknown" ++ "%"] ++
  (match tbl.content with
   | some content =>
     ["  Content Summary:",
      "    " ++ (if 200 < content.length then content.take 200 ++ "..." else content)]
   | none => [])

/-- Pure analogue of `enumBlocks` for the table loop. -/
def enumConcat {α : Type} (f : Nat → α → List String) :
    Nat → List α → List String
  | _, [] => []
  | i, x :: xs => f i x ++ enumConcat f (i + 1) xs

/-- Tables section, src/app/main.py lines 137-153. -/
def tablesSection (results : Results) : Except String (List String) :=
  if truthyList results.tables then
    match idx results.tables with
    | .error e => .error e
    | .ok tables =>
      .ok (["EXTRACTED TABLES:", dash40] ++ enumConcat tableBlock 1 tables ++ [""])
  else .ok []

/-- Main text section, src/app/main.py lines 156-160: only when
`results.get('text_content')` is truthy. -/
def textSection (results : Results) : Except String (List String) :=
  if truthyStr results.text_content then
    match idx results.text_content with
    | .error e => .error e
    | .ok t => .ok (["EXTRACTED TEXT CONTENT:", dash40, t, ""])
  else .ok []

/-- OCR section, src/app/main.py lines 163-167: only when
`results.get('ocr_text')` is truthy and `results['ocr_text']` differs from
`results.get('text_content', '')`. -/
def ocrSection (results : Results) : Except String (List String) :=
  if truthyStr results.ocr_text then
    match idx results.ocr_text with
    | .error e => .error e
    | .ok o =>
      if o ≠ results.text_content.getD "" then
        .ok (["OCR EXTRACTED TEXT:", dash40, o, ""])
      else .ok []
  else .ok []

/-- Trailing summary, src/app/main.py lines 170-175. -/
def summaryLines (results : Results) : List String :=
  ["PROCESSING SUMMARY:", dash40,
   "Text Length: " ++ toString (results.text_content.getD "").length ++ " characters",
   "Images Found: " ++ toString (results.images.getD []).length,
   "Tables Found: " ++ toString (results.tables.getD []).length,
   "OCR Length: " ++ toString (results.ocr_text.getD "").length ++ " characters"]

/-- The `output_lines` list built by `generate_output_text`
(src/app/main.py lines 83-177) before the final join: header, then — when
the `error` key is present — the error line and nothing else, otherwise the
six sections in order followed by the summary. -/
def generate_output_lines (results : Results) : Except String (List String) :=
  match results.error with
  | some e => .ok (headerLines results ++ ["ERROR: " ++ e])
  | none =>
    match metadataSection results with
    | .error e => .error e
    | .ok md =>
      match structureSection results with
      | .error e => .error e
      | .ok st =>
        match imagesSection results with
        | .error e => .error e
        | .ok im =>
          match tablesSection results with
          | .error e => .error e
          | .ok tb =>
            match textSection results with
            | .error e => .error e
            | .ok tx =>
              match ocrSection results with
              | .error e => .error e
              | .ok oc =>
                .ok (headerLines results ++ md ++ st ++ im ++ tb ++ tx ++ oc ++
                     summaryLines results)

/-- Embedding of `generate_output_text` (src/app/main.py lines 83-177):
the built lines joined with newlines. -/
def generate_output_text (results : Results) : Except String String :=
  match generate_output_lines results with
  | .error e => .error e
  | .ok lines => .ok (String.intercalate "\n" lines)

/-- The two messages of the PyPDF2 `except` handlers
(src/app/validators.py lines 48-51), as a function of the raised
exception. -/
def pdfErrMsg : PyErr → String
  | .pdfReadError e => "Corrupted PDF: " ++ e
  | .otherError e => "PDF validation failed: " ++ e

/-- The content-type check (src/app/validators.py lines 26-33) succeeds:
either sniffing returns the PDF MIME type, or sniffing raises and the
lowercased path ends with `.pdf`. -/
def typeCheckPasses (fs : FsEnv) (path : String) : Prop :=
  fs.magic_mime = .ok "application/pdf" ∨
  (∃ m, fs.magic_mime = .error m ∧ endsWithLowerPdf path = true)

/-- A filesystem view on which every validator check succeeds. -/
def fsOK : FsEnv where
  path_exists := true
  getsize := .ok 100
  magic_mime := .ok "application/pdf"
  open_result := .ok { num_pages := 2, extract_text := .ok "Hello" }

/-- The view `fsOK` with the content sniffer raising. -/
def fsMagicFail : FsEnv := { fsOK with magic_mime := .error "magic unavailable" }

/-- The view `fsOK` with the path absent. -/
def fsMissing : FsEnv := { fsOK with path_exists := false }

/-- An environment in which validation and all five extractors succeed. -/
def envOK : Env where
  fs := fsOK
  now := "T1"
  now_err := "T2"
  text_structure := .ok { text := some "Hello", structure_ := some { total_pages := some 2, headings := some ["A"] } }
  images := .ok []
  tables := .ok [{ page := some "1", shape := some "(2, 2)", accuracy := some "95.0", content := some "abc" }]
  metadata := .ok [("title", "Doc")]
  ocr := .ok "Hello"

/-- The environment `envOK` with the table extractor raising. -/
def envTableFault : Env := { envOK with tables := .error "boom" }

/-- The environment `envOK` pointed at an absent path. -/
def envMissing : Env := { envOK with fs := fsMissing }

/-- An error-free aggregate whose content fields all sit at their empty
defaults, exactly as `init_results` leaves them. -/
def empty_ok_results : Results where
  filename := "doc.pdf"
  processed_at := "2026-01-01 00:00:00"
  text_content := some ""
  structure_ := some {}
  images := some []
  tables := some []
  metadata := some []
  ocr_text := some ""

theorem metadataSection_eq (r : Results) :
    metadataSection r = .ok (if truthyList r.metadata then
      ["DOCUMENT METADATA:", dash40] ++
        (r.metadata.getD []).filterMap (fun kv =>
          if kv.2.isEmpty then none else some (pyTitle kv.1 ++ ": " ++ kv.2)) ++
        [""]
    else []) := by
  unfold metadataSection
  cases h : r.metadata with
  | none => simp [truthyList, h]
  | some md =>
    by_cases hmd : md.isEmpty
    · simp [truthyList, h, hmd]
    · simp [truthyList, h, hmd, idx]

theorem structureSection_eq (r : Results) :
    structureSection r = .ok (if truthyStruct r.structure_ then
      ["DOCUMENT STRUCTURE:", dash40,
       "Total Pages: " ++
         (match (r.structure_.getD {}).total_pages with
          | some n => toString n
          | none => "Unknown")] ++
      (match (r.structure_.getD {}).headings with
       | some hs => "Headings Found:" :: hs.map (fun h => "  - " ++ h)
       | none => []) ++
      [""]
    else []) := by
  unfold structureSection
  cases h : r.structure_ with
  | none => simp [truthyStruct, h]
  | some st =>
    by_cases hst : (truthyStruct (some st) = true)
    · simp [h, hst, idx]
    · simp [h, hst]

theorem imageBlock_ok (i : Nat) (img : ImageRecord) :
    ∃ b, imageBlock i img = .ok b := by
  unfold imageBlock
  cases h : img.description with
  | none => simp [truthyStr, h]
  | some d =>
    by_cases hd : d.isEmpty
    · simp [truthyStr, h, hd]
    · simp [truthyStr, h, hd, idx]

theorem enumBlocks_imageBlock_ok (i : Nat) (imgs : List ImageRecord) :
    ∃ b, enumBlocks imageBlock i imgs = .ok b := by
  induction imgs generalizing i with
  | nil => exact ⟨[], rfl⟩
  | cons x xs ih =>
    obtain ⟨b, hb⟩ := imageBlock_ok i x
    obtain ⟨rest, hrest⟩ := ih (i + 1)
    exact ⟨b ++ rest, by simp [enumBlocks, hb, hrest]⟩

theorem imagesSection_spec (r : Results) :
    ∃ L, imagesSection r = .ok L ∧ (L ≠ [] ↔ truthyList r.images = true) := by
  unfold imagesSection
  cases h : r.images with
  | none => exact ⟨[], by simp [truthyList, h]⟩
  | some imgs =>
    by_cases hi : imgs.isEmpty
    · exact ⟨[], by simp [truthyList, h, hi]⟩
    · obtain ⟨b, hb⟩ := enumBlocks_imageBlock_ok 1 imgs
      refine ⟨["EXTRACTED IMAGES:", dash40] ++ b ++ [""], ?_, ?_⟩
      · simp [truthyList, h, hi, idx, hb]
      · simp [truthyList, h, hi]

theorem tablesSection_eq (r : Results) :
    tablesSection r = .ok (if truthyList r.tables then
      ["EXTRACTED TABLES:", dash40] ++ enumConcat tableBlock 1 (r.tables.getD []) ++ [""]
    else []) := by
  unfold tablesSection
  cases h : r.tables with
  | none => simp [truthyList, h]
  | some tbs =>
    by_cases ht : tbs.isEmpty
    · simp [truthyList, h, ht]
    · simp [truthyList, h, ht, idx]

theorem textSection_eq (r : Results) :
    textSection r = .ok (if truthyStr r.text_content then
      ["EXTRACTED TEXT CONTENT:", dash40, r.text_content.getD "", ""]
    else []) := by
  unfold textSection
  cases h : r.text_content with
  | none => simp [truthyStr, h]
  | some t =>
    by_cases ht : t.isEmpty
    · simp [truthyStr, h, ht]
    · simp [truthyStr, h, ht, idx]

theorem ocrSection_eq (r : Results) :
    ocrSection r = .ok (if (truthyStr r.ocr_text &&
        !(r.ocr_text.getD "" == r.text_content.getD "")) = true then
      ["OCR EXTRACTED TEXT:", dash40, r.ocr_text.getD "", ""]
    else []) := by
  unfold ocrSection
  cases h : r.ocr_text with
  | none => simp [truthyStr, h]
  | some o =>
    by_cases ho : o.isEmpty
    · simp [truthyStr, h, ho]
    · by_cases hne : o = r.text_content.getD ""
      · simp [truthyStr, h, ho, idx, hne]
      · simp [truthyStr, h, ho, idx, hne]

theorem generate_output_lines_error (r : Results) (e : String)
    (h : r.error = some e) :
    generate_output_lines r = .ok (headerLines r ++ ["ERROR: " ++ e]) := by
  unfold generate_output_lines
  rw [h]

theorem generate_output_lines_of_sections (r : Results)
    (h : r.error = none) (md st im tb tx oc : List String)
    (hmd : metadataSection r = .ok md) (hst : structureSection r = .ok st)
    (him : imagesSection r = .ok im) (htb : tablesSection r = .ok tb)
    (htx : textSection r = .ok tx) (hoc : ocrSection r = .ok oc) :
    generate_output_lines r =
      .ok (headerLines r ++ md ++ st ++ im ++ tb ++ tx ++ oc ++ summaryLines r) := by
  unfold generate_output_lines
  rw [h, hmd, hst, him, htb, htx, hoc]

theorem generate_output_lines_total (r : Results) :
    ∃ L, generate_output_lines r = .ok L := by
  cases h : r.error with
  | some e => exact ⟨_, generate_output_lines_error r e h⟩
  | none =>
    obtain ⟨im, him, -⟩ := imagesSection_spec r
    exact ⟨_, generate_output_lines_of_sections r h _ _ im _ _ _
      (metadataSection_eq r) (structureSection_eq r) him (tablesSection_eq r)
      (textSection_eq r) (ocrSection_eq r)⟩

theorem generate_output_text_total (r : Results) :
    ∃ s, generate_output_text r = .ok s := by
  obtain ⟨L, hL⟩ := generate_output_lines_total r
  exact ⟨String.intercalate "\n" L, by unfold generate_output_text; rw [hL]⟩

/-- Claim C1: if any unhandled fault is raised during `process_pdf` after
initialization (in this model: any of the five extractors raises, the first
fault being `first_fault`), the returned aggregate has only `filename`,
`processed_at` and `error = "Processing failed: " ++ description`; every
content field assigned before the fault is absent from the result. -/
theorem C1_fault_yields_error_only_aggregate (env : Env) (p f e : String)
    (hv : (validate_pdf env.fs p).valid = true)
    (hf : first_fault env = some e) :
    (process_pdf env p f).1 =
      { filename := f, processed_at := env.now_err,
        text_content := none, structure_ := none, images := none,
        tables := none, metadata := none, ocr_text := none,
        error := some ("Processing failed: " ++ e) } := by
  cases h1 : env.text_structure with
  | error e1 =>
    simp [first_fault, h1] at hf
    simp [process_pdf, failure_results, hv, h1, hf]
  | ok td =>
    cases h2 : env.images with
    | error e2 =>
      simp [first_fault, h1, h2] at hf
      simp [process_pdf, failure_results, hv, h1, h2, hf]
    | ok ims =>
      cases h3 : env.tables with
      | error e3 =>
        simp [first_fault, h1, h2, h3] at hf
        simp [process_pdf, failure_results, hv, h1, h2, h3, hf]
      | ok tbs =>
        cases h4 : env.metadata with
        | error e4 =>
          simp [first_fault, h1, h2, h3, h4] at hf
          simp [process_pdf, failure_results, hv, h1, h2, h3, h4, hf]
        | ok md =>
          cases h5 : env.ocr with
          | error e5 =>
            simp [first_fault, h1, h2, h3, h4, h5] at hf
            simp [process_pdf, failure_results, hv, h1, h2, h3, h4, h5, hf]
          | ok oc =>
            simp [first_fault, h1, h2, h3, h4, h5] at hf

theorem C1_witness :
    (validate_pdf envTableFault.fs "p/doc.pdf").valid = true ∧
    first_fault envTableFault = some "boom" ∧
    (process_pdf envTableFault "p/doc.pdf" "doc.pdf").1 =
      { filename := "doc.pdf", processed_at := "T2", text_content := none,
        structure_ := none, images := none, tables := none, metadata := none,
        ocr_text := none, error := some ("Processing failed: " ++ "boom") } :=
  ⟨rfl, rfl,
   C1_fault_yields_error_only_aggregate envTableFault "p/doc.pdf" "doc.pdf" "boom" rfl rfl⟩

/-- Claim C2: whenever the validator reports `valid = false`, `process_pdf`
copies the validator's error into the aggregate and returns at once, every
content field still at its empty default, with an empty extractor trace. -/
theorem C2_validation_failure_skips_extractors (env : Env) (p f : String)
    (hv : (validate_pdf env.fs p).valid = false) :
    process_pdf env p f =
      ({ filename := f, processed_at := env.now,
         text_content := some "", structure_ := some {}, images := some [],
         tables := some [], metadata := some [], ocr_text := some "",
         error := (validate_pdf env.fs p).error }, []) := by
  simp [process_pdf, init_results, hv]

theorem C2_witness :
    (validate_pdf envMissing.fs "missing.pdf").valid = false ∧
    process_pdf envMissing "missing.pdf" "missing.pdf" =
      ({ filename := "missing.pdf", processed_at := "T1", text_content := some "",
         structure_ := some {}, images := some [], tables := some [],
         metadata := some [], ocr_text := some "",
         error := (validate_pdf envMissing.fs "missing.pdf").error }, []) :=
  ⟨rfl, C2_validation_failure_skips_extractors envMissing "missing.pdf" "missing.pdf" rfl⟩

/-- Claim C3: when validation passes and no extractor raises, the five
extractors run exactly once each, in the order text/structure, images,
tables, metadata, OCR, all against the same validated path, and each output
lands in its own aggregate field. -/
theorem C3_extractors_in_order (env : Env) (p f : String)
    (td : TextData) (ims : List ImageRecord) (tbs : List TableRecord)
    (md : List (String × String)) (oc : String)
    (hv : (validate_pdf env.fs p).valid = true)
    (h1 : env.text_structure = .ok td) (h2 : env.images = .ok ims)
    (h3 : env.tables = .ok tbs) (h4 : env.metadata = .ok md)
    (h5 : env.ocr = .ok oc) :
    process_pdf env p f =
      ({ filename := f, processed_at := env.now,
         text_content := some (td.text.getD ""),
         structure_ := some (td.structure_.getD {}),
         images := some ims, tables := some tbs, metadata := some md,
         ocr_text := some oc, error := none },
       [.textStructure p, .images p, .tables p, .metadata p, .ocr p]) := by
  simp [process_pdf, init_results, hv, h1, h2, h3, h4, h5]

theorem C3_witness :
    (validate_pdf envOK.fs "p/doc.pdf").valid = true ∧
    process_pdf envOK "p/doc.pdf" "doc.pdf" =
      ({ filename := "doc.pdf", processed_at := "T1",
         text_content := some "Hello",
         structure_ := some { total_pages := some 2, headings := some ["A"] },
         images := some [],
         tables := some [{ page := some "1", shape := some "(2, 2)", accuracy := some "95.0", content := some "abc" }],
         metadata := some [("title", "Doc")], ocr_text := some "Hello",
         error := none },
       [.textStructure "p/doc.pdf", .images "p/doc.pdf", .tables "p/doc.pdf",
        .metadata "p/doc.pdf", .ocr "p/doc.pdf"]) :=
  ⟨rfl, C3_extractors_in_order envOK "p/doc.pdf" "doc.pdf"
    { text := some "Hello", structure_ := some { total_pages := some 2, headings := some ["A"] } }
    [] [{ page := some "1", shape := some "(2, 2)", accuracy := some "95.0", content := some "abc" }]
    [("title", "Doc")] "Hello" rfl rfl rfl rfl rfl rfl⟩

/-- Claim C4: the validator performs its checks in the fixed order — path
existence, size > 0, size ≤ 50 MiB, PDF content type by sniffing (extension
fallback when sniffing raises), openable with at least one page, first-page
text extractable — short-circuiting with the first failing check's error
(each clause holds for every environment agreeing on the earlier checks, so
no later check is consulted), and returns `valid = true` exactly when all
checks pass. -/
theorem validate_pdf_valid_inversion (fs : FsEnv) (path : String)
    (hv : (validate_pdf fs path).valid = true) :
    fs.path_exists = true ∧
    (∃ n, fs.getsize = .ok n ∧ 0 < n ∧ n ≤ MAX_FILE_SIZE) ∧
    typeCheckPasses fs path ∧
    (∃ pdf, fs.open_result = .ok pdf ∧ 0 < pdf.num_pages ∧
       ∃ text, pdf.extract_text = .ok text) := by
  cases hpe : fs.path_exists with
  | false => simp [validate_pdf, hpe] at hv
  | true =>
    cases hg : fs.getsize with
    | error m => simp [validate_pdf, hpe, hg] at hv
    | ok n =>
      by_cases h0 : n = 0
      · simp [validate_pdf, hpe, hg, h0] at hv
      · by_cases hM : MAX_FILE_SIZE < n
        · simp [validate_pdf, hpe, hg, h0, hM] at hv
        · cases hmm : fs.magic_mime with
          | ok t =>
            by_cases ht : t = "application/pdf"
            · cases ho : fs.open_result with
              | error err =>
                cases err <;> simp [validate_pdf, hpe, hg, h0, hM, hmm, ht, ho] at hv
              | ok pdf =>
                by_cases hp : pdf.num_pages = 0
                · simp [validate_pdf, hpe, hg, h0, hM, hmm, ht, ho, hp] at hv
                · cases hx : pdf.extract_text with
                  | error err =>
                    cases err <;>
                      simp [validate_pdf, hpe, hg, h0, hM, hmm, ht, ho, hp, hx] at hv
                  | ok text =>
                    exact ⟨rfl, ⟨n, rfl, by omega, by omega⟩,
                      .inl (by rw [hmm, ht]),
                      pdf, rfl, by omega, text, hx⟩
            · simp [validate_pdf, hpe, hg, h0, hM, hmm, ht] at hv
          | error m =>
            by_cases hext : endsWithLowerPdf path = true
            · cases ho : fs.open_result with
              | error err =>
                cases err <;> simp [validate_pdf, hpe, hg, h0, hM, hmm, hext, ho] at hv
              | ok pdf =>
                by_cases hp : pdf.num_pages = 0
                · simp [validate_pdf, hpe, hg, h0, hM, hmm, hext, ho, hp] at hv
                · cases hx : pdf.extract_text with
                  | error err =>
                    cases err <;>
                      simp [validate_pdf, hpe, hg, h0, hM, hmm, hext, ho, hp, hx] at hv
                  | ok text =>
                    exact ⟨rfl, ⟨n, rfl, by omega, by omega⟩,
                      .inr ⟨m, hmm, hext⟩,
                      pdf, rfl, by omega, text, hx⟩
            · simp [validate_pdf, hpe, hg, h0, hM, hmm, hext] at hv

theorem C4_validator_check_order (fs : FsEnv) (path : String) :
    (fs.path_exists = false →
       validate_pdf fs path = { valid := false, error := some "File does not exist" }) ∧
    (∀ m, fs.path_exists = true → fs.getsize = .error m →
       validate_pdf fs path = { valid := false, error := some ("Validation error: " ++ m) }) ∧
    (fs.path_exists = true → fs.getsize = .ok 0 →
       validate_pdf fs path = { valid := false, error := some "File is empty" }) ∧
    (∀ n, fs.path_exists = true → fs.getsize = .ok n → 0 < n → MAX_FILE_SIZE < n →
       validate_pdf fs path =
         { valid := false,
           error := some ("File too large: " ++ fmtMB1 n ++ "MB (max: 50MB)") }) ∧
    (∀ n t, fs.path_exists = true → fs.getsize = .ok n → 0 < n → n ≤ MAX_FILE_SIZE →
       fs.magic_mime = .ok t → t ≠ "application/pdf" →
       validate_pdf fs path =
         { valid := false,
           error := some ("Invalid file type: " ++ t ++ ". Expected PDF.") }) ∧
    (∀ n m, fs.path_exists = true → fs.getsize = .ok n → 0 < n → n ≤ MAX_FILE_SIZE →
       fs.magic_mime = .error m → endsWithLowerPdf path = false →
       validate_pdf fs path =
         { valid := false,
           error := some "File does not have .pdf extension" }) ∧
    (∀ n err, fs.path_exists = true → fs.getsize = .ok n → 0 < n → n ≤ MAX_FILE_SIZE →
       typeCheckPasses fs path → fs.open_result = .error err →
       validate_pdf fs path = { valid := false, error := some (pdfErrMsg err) }) ∧
    (∀ n pdf, fs.path_exists = true → fs.getsize = .ok n → 0 < n → n ≤ MAX_FILE_SIZE →
       typeCheckPasses fs path → fs.open_result = .ok pdf → pdf.num_pages = 0 →
       validate_pdf fs path = { valid := false, error := some "PDF has no pages" }) ∧
    (∀ n pdf err, fs.path_exists = true → fs.getsize = .ok n → 0 < n → n ≤ MAX_FILE_SIZE →
       typeCheckPasses fs path → fs.open_result = .ok pdf → 0 < pdf.num_pages →
       pdf.extract_text = .error err →
       validate_pdf fs path = { valid := false, error := some (pdfErrMsg err) }) ∧
    (∀ n pdf text, fs.path_exists = true → fs.getsize = .ok n → 0 < n → n ≤ MAX_FILE_SIZE →
       typeCheckPasses fs path → fs.open_result = .ok pdf → 0 < pdf.num_pages →
       pdf.extract_text = .ok text →
       validate_pdf fs path =
         { valid := true, error := none, file_size := some n,
           num_pages := some pdf.num_pages,
           has_text := some (decide (0 < (pyStrip text).length)) }) ∧
    ((validate_pdf fs path).valid = true →
       fs.path_exists = true ∧
       (∃ n, fs.getsize = .ok n ∧ 0 < n ∧ n ≤ MAX_FILE_SIZE) ∧
       typeCheckPasses fs path ∧
       (∃ pdf, fs.open_result = .ok pdf ∧ 0 < pdf.num_pages ∧
          ∃ text, pdf.extract_text = .ok text)) := by
  refine ⟨?_, ?_, ?_, ?_, ?_, ?_, ?_, ?_, ?_, ?_, ?_⟩
  · intro h
    simp [validate_pdf, h]
  · intro m h hg
    simp [validate_pdf, h, hg]
  · intro h hg
    simp [validate_pdf, h, hg]
  · intro n h hg h0 hM
    have h0' : ¬n = 0 := by omega
    simp [validate_pdf, h, hg, h0', hM]
  · intro n t h hg h0 hM hmm ht
    have h0' : ¬n = 0 := by omega
    have hM' : ¬MAX_FILE_SIZE < n := by omega
    simp [validate_pdf, h, hg, h0', hM', hmm, ht]
  · intro n m h hg h0 hM hmm hext
    have h0' : ¬n = 0 := by omega
    have hM' : ¬MAX_FILE_SIZE < n := by omega
    simp [validate_pdf, h, hg, h0', hM', hmm, hext]
  · intro n err h hg h0 hM htc ho
    have h0' : ¬n = 0 := by omega
    have hM' : ¬MAX_FILE_SIZE < n := by omega
    rcases htc with hok | ⟨m, hm, hext⟩
    · cases err <;> simp [validate_pdf, pdfErrMsg, h, hg, h0', hM', hok, ho]
    · cases err <;> simp [validate_pdf, pdfErrMsg, h, hg, h0', hM', hm, hext, ho]
  · intro n pdf h hg h0 hM htc ho hp
    have h0' : ¬n = 0 := by omega
    have hM' : ¬MAX_FILE_SIZE < n := by omega
    rcases htc with hok | ⟨m, hm, hext⟩
    · simp [validate_pdf, h, hg, h0', hM', hok, ho, hp]
    · simp [validate_pdf, h, hg, h0', hM', hm, hext, ho, hp]
  · intro n pdf err h hg h0 hM htc ho hp hx
    have h0' : ¬n = 0 := by omega
    have hM' : ¬MAX_FILE_SIZE < n := by omega
    have hp' : ¬pdf.num_pages = 0 := by omega
    rcases htc with hok | ⟨m, hm, hext⟩
    · cases err <;> simp [validate_pdf, pdfErrMsg, h, hg, h0', hM', hok, ho, hp', hx]
    · cases err <;> simp [validate_pdf, pdfErrMsg, h, hg, h0', hM', hm, hext, ho, hp', hx]
  · intro n pdf text h hg h0 hM htc ho hp hx
    have h0' : ¬n = 0 := by omega
    have hM' : ¬MAX_FILE_SIZE < n := by omega
    have hp' : ¬pdf.num_pages = 0 := by omega
    rcases htc with hok | ⟨m, hm, hext⟩
    · simp [validate_pdf, h, hg, h0', hM', hok, ho, hp', hx]
    · simp [validate_pdf, h, hg, h0', hM', hm, hext, ho, hp', hx]
  · exact validate_pdf_valid_inversion fs path

theorem C4_witness :
    fsMissing.path_exists = false ∧
    validate_pdf fsMissing "a.pdf" = { valid := false, error := some "File does not exist" } :=
  ⟨rfl, (C4_validator_check_order fsMissing "a.pdf").1 rfl⟩

/-- The lines `generate_output_text` produces for `empty_ok_results`:
header and summary only, no section in between. -/
def empty_report_lines : List String :=
  [bar80, "PDF PROCESSING RESULTS: doc.pdf", "Processed at: 2026-01-01 00:00:00",
   bar80, "", "PROCESSING SUMMARY:", dash40, "Text Length: 0 characters",
   "Images Found: 0", "Tables Found: 0", "OCR Length: 0 characters"]

/-- Claim C5 is false on the code: for the error-free aggregate
`empty_ok_results`, whose metadata and structure mappings are empty, the
rendered report contains neither the metadata section header nor the
structure section header — the code guards both with truthiness tests. -/
theorem C5_counterexample :
    empty_ok_results.error = none ∧
    generate_output_lines empty_ok_results = .ok empty_report_lines ∧
    "DOCUMENT METADATA:" ∉ empty_report_lines ∧
    "DOCUMENT STRUCTURE:" ∉ empty_report_lines := by
  refine ⟨rfl, by decide, by decide, by decide⟩

/-- Claim C5 (amended): for aggregates without an error field, every
section is conditional — the metadata and structure headers render iff the
respective mapping is truthy (non-empty), and the images, tables, text and
OCR sections render iff their collection or string is truthy (the OCR
section additionally requiring the OCR text to differ from the main text);
the report is the header, the six section line-blocks in order, and the
summary. -/
theorem C5_amended_sections_conditional (r : Results) (hne : r.error = none) :
    ((metadataSection r ≠ .ok []) ↔ truthyList r.metadata = true) ∧
    ((structureSection r ≠ .ok []) ↔ truthyStruct r.structure_ = true) ∧
    ((imagesSection r ≠ .ok []) ↔ truthyList r.images = true) ∧
    ((tablesSection r ≠ .ok []) ↔ truthyList r.tables = true) ∧
    ((textSection r ≠ .ok []) ↔ truthyStr r.text_content = true) ∧
    ((ocrSection r ≠ .ok []) ↔ (truthyStr r.ocr_text = true ∧
        r.ocr_text.getD "" ≠ r.text_content.getD "")) ∧
    (∀ md st im tb tx oc, metadataSection r = .ok md → structureSection r = .ok st →
       imagesSection r = .ok im → tablesSection r = .ok tb → textSection r = .ok tx →
       ocrSection r = .ok oc →
       generate_output_lines r =
         .ok (headerLines r ++ md ++ st ++ im ++ tb ++ tx ++ oc ++ summaryLines r)) := by
  refine ⟨?_, ?_, ?_, ?_, ?_, ?_, ?_⟩
  · rw [metadataSection_eq r]
    by_cases ht : truthyList r.metadata = true
    · simp [ht]
    · simp [ht]
  · rw [structureSection_eq r]
    by_cases ht : truthyStruct r.structure_ = true
    · simp [ht]
    · simp [ht]
  · obtain ⟨L, hL, hiff⟩ := imagesSection_spec r
    rw [hL]
    simpa using hiff
  · rw [tablesSection_eq r]
    by_cases ht : truthyList r.tables = true
    · simp [ht]
    · simp [ht]
  · rw [textSection_eq r]
    by_cases ht : truthyStr r.text_content = true
    · simp [ht]
    · simp [ht]
  · rw [ocrSection_eq r]
    by_cases ht : (truthyStr r.ocr_text &&
        !(r.ocr_text.getD "" == r.text_content.getD "")) = true
    · simp only [ht, if_true]
      simp only [Bool.and_eq_true, Bool.not_eq_true', beq_eq_false_iff_ne] at ht
      simp [ht]
    · simp only [ht, if_false, Bool.if_false_right]
      simp only [Bool.and_eq_true, Bool.not_eq_true', beq_eq_false_iff_ne] at ht
      simp [ht]
  · exact fun md st im tb tx oc => generate_output_lines_of_sections r hne md st im tb tx oc

theorem C5_witness :
    empty_ok_results.error = none ∧
    ((metadataSection empty_ok_results ≠ .ok []) ↔
      truthyList empty_ok_results.metadata = true) :=
  ⟨rfl, (C5_amended_sections_conditional empty_ok_results rfl).1⟩

/-- An error-free aggregate whose main text and OCR text coincide. -/
def hello_results : Results where
  filename := "doc.pdf"
  processed_at := "2026-01-01 00:00:00"
  text_content := some "Hello"
  structure_ := some {}
  images := some []
  tables := some []
  metadata := some []
  ocr_text := some "Hello"

/-- Claim C6: for aggregates without an error field, the OCR section is
non-empty iff the OCR text is truthy and differs from the main text
content; when it equals the main text (or is empty) the section is absent,
and when present the section is exactly header, rule, text, blank line. -/
theorem C6_ocr_section_iff (r : Results) (hne : r.error = none)
    (L : List String) (hL : ocrSection r = .ok L) :
    ((L ≠ []) ↔ (truthyStr r.ocr_text = true ∧
        r.ocr_text.getD "" ≠ r.text_content.getD "")) ∧
    (r.ocr_text.getD "" = r.text_content.getD "" → L = []) ∧
    (L ≠ [] → L = ["OCR EXTRACTED TEXT:", dash40, r.ocr_text.getD "", ""]) := by
  rw [ocrSection_eq r] at hL
  by_cases ht : (truthyStr r.ocr_text &&
      !(r.ocr_text.getD "" == r.text_content.getD "")) = true
  · rw [if_pos ht] at hL
    injection hL with hL
    subst hL
    simp only [Bool.and_eq_true, Bool.not_eq_true', beq_eq_false_iff_ne] at ht
    refine ⟨by simp [ht], fun heq => absurd heq ht.2, fun _ => rfl⟩
  · rw [if_neg ht] at hL
    injection hL with hL
    subst hL
    simp only [Bool.and_eq_true, Bool.not_eq_true', beq_eq_false_iff_ne] at ht
    exact ⟨by simp [ht], fun _ => rfl, fun h => absurd rfl h⟩

theorem C6_witness :
    hello_results.error = none ∧
    ocrSection hello_results = Except.ok [] ∧
    ((([] : List String) ≠ []) ↔ (truthyStr hello_results.ocr_text = true ∧
        hello_results.ocr_text.getD "" ≠ hello_results.text_content.getD "")) :=
  ⟨rfl, rfl, (C6_ocr_section_iff hello_results rfl [] rfl).1⟩

/-- Claim C7: in a rendered table block, content longer than 200 characters
is previewed as exactly its first 200 characters followed by the marker
`"..."`, and content of at most 200 characters is rendered unmodified. -/
theorem C7_table_preview_truncation (i : Nat) (tbl : TableRecord) (c : String)
    (hc : tbl.content = some c) :
    (200 < c.length →
       tableBlock i tbl =
         ["Table " ++ toString i ++ ":",
          "  Page: " ++ tbl.page.getD "Unknown",
          "  Dimensions: " ++ tbl.shape.getD "Unknown",
          "  Accuracy: " ++ tbl.accuracy.getD "Unknown" ++ "%",
          "  Content Summary:",
          "    " ++ (c.take 200 ++ "...")] ∧
       (c.take 200).length = 200) ∧
    (c.length ≤ 200 →
       tableBlock i tbl =
         ["Table " ++ toString i ++ ":",
          "  Page: " ++ tbl.page.getD "Unknown",
          "  Dimensions: " ++ tbl.shape.getD "Unknown",
          "  Accuracy: " ++ tbl.accuracy.getD "Unknown" ++ "%",
          "  Content Summary:",
          "    " ++ c]) := by
  constructor
  · intro hlong
    constructor
    · simp [tableBlock, hc, hlong]
    · cases c with
      | mk l =>
        rw [String.take_eq]
        simp at hlong ⊢
        omega
  · intro hshort
    have : ¬200 < c.length := by omega
    simp [tableBlock, hc, this]

/-- A 201-character content string and a table record carrying it. -/
def longContent : String := String.mk (List.replicate 201 'a')

def longTable : TableRecord := { content := some longContent }

set_option maxRecDepth 8000 in
theorem C7_witness :
    longTable.content = some longContent ∧ 200 < longContent.length ∧
    (tableBlock 1 longTable =
      ["Table " ++ toString 1 ++ ":",
       "  Page: " ++ longTable.page.getD "Unknown",
       "  Dimensions: " ++ longTable.shape.getD "Unknown",
       "  Accuracy: " ++ longTable.accuracy.getD "Unknown" ++ "%",
       "  Content Summary:",
       "    " ++ (longContent.take 200 ++ "...")] ∧
     (longContent.take 200).length = 200) :=
  ⟨rfl, by decide,
   (C7_table_preview_truncation 1 longTable longContent rfl).1 (by decide)⟩

/-- Claim C8: the renderer is a pure function of the aggregate alone —
rendering the same aggregate twice yields the same text. -/
theorem C8_renderer_deterministic (r : Results) (out1 out2 : Except String String)
    (h1 : generate_output_text r = out1) (h2 : generate_output_text r = out2) :
    out1 = out2 := by
  rw [← h1, ← h2]

set_option maxRecDepth 8000 in
theorem C8_witness :
    generate_output_text empty_ok_results =
      Except.ok (String.intercalate "\n" empty_report_lines) :=
  C8_renderer_deterministic empty_ok_results
    (generate_output_text empty_ok_results)
    (Except.ok (String.intercalate "\n" empty_report_lines)) rfl (by decide)

theorem length_append_pos (a b : String) (h : 0 < a.length) :
    0 < (a ++ b).length := by
  rw [String.length_append]
  omega

/-- Every outcome of `validate_pdf` is either invalid with a non-empty
error message, or valid with the three informational fields populated and
no error. -/
theorem validate_pdf_shapes (fs : FsEnv) (path : String) :
    (∃ e, validate_pdf fs path =
       { valid := false, error := some e } ∧ 0 < e.length) ∨
    (∃ n p b, validate_pdf fs path =
       { valid := true, error := none, file_size := some n,
         num_pages := some p, has_text := some b }) := by
  cases hpe : fs.path_exists with
  | false =>
    exact .inl ⟨"File does not exist", by simp [validate_pdf, hpe], by decide⟩
  | true =>
    cases hg : fs.getsize with
    | error m =>
      exact .inl ⟨"Validation error: " ++ m, by simp [validate_pdf, hpe, hg],
        length_append_pos _ _ (by decide)⟩
    | ok n =>
      by_cases h0 : n = 0
      · exact .inl ⟨"File is empty", by simp [validate_pdf, hpe, hg, h0], by decide⟩
      · by_cases hM : MAX_FILE_SIZE < n
        · exact .inl ⟨"File too large: " ++ fmtMB1 n ++ "MB (max: 50MB)",
            by simp [validate_pdf, hpe, hg, h0, hM],
            length_append_pos _ _ (length_append_pos _ _ (by decide))⟩
        · cases hmm : fs.magic_mime with
          | ok t =>
            by_cases ht : t = "application/pdf"
            · cases ho : fs.open_result with
              | error err =>
                cases err with
                | pdfReadError e =>
                  exact .inl ⟨"Corrupted PDF: " ++ e,
                    by simp [validate_pdf, hpe, hg, h0, hM, hmm, ht, ho],
                    length_append_pos _ _ (by decide)⟩
                | otherError e =>
                  exact .inl ⟨"PDF validation failed: " ++ e,
                    by simp [validate_pdf, hpe, hg, h0, hM, hmm, ht, ho],
                    length_append_pos _ _ (by decide)⟩
              | ok pdf =>
                by_cases hp : pdf.num_pages = 0
                · exact .inl ⟨"PDF has no pages",
                    by simp [validate_pdf, hpe, hg, h0, hM, hmm, ht, ho, hp], by decide⟩
                · cases hx : pdf.extract_text with
                  | error err =>
                    cases err with
                    | pdfReadError e =>
                      exact .inl ⟨"Corrupted PDF: " ++ e,
                        by simp [validate_pdf, hpe, hg, h0, hM, hmm, ht, ho, hp, hx],
                        length_append_pos _ _ (by decide)⟩
                    | otherError e =>
                      exact .inl ⟨"PDF validation failed: " ++ e,
                        by simp [validate_pdf, hpe, hg, h0, hM, hmm, ht, ho, hp, hx],
                        length_append_pos _ _ (by decide)⟩
                  | ok text =>
                    exact .inr ⟨n, pdf.num_pages, decide (0 < (pyStrip text).length),
                      by simp [validate_pdf, hpe, hg, h0, hM, hmm, ht, ho, hp, hx]⟩
            · exact .inl ⟨"Invalid file type: " ++ t ++ ". Expected PDF.",
                by simp [validate_pdf, hpe, hg, h0, hM, hmm, ht],
                length_append_pos _ _ (length_append_pos _ _ (by decide))⟩
          | error m =>
            by_cases hext : endsWithLowerPdf path = true
            · cases ho : fs.open_result with
              | error err =>
                cases err with
                | pdfReadError e =>
                  exact .inl ⟨"Corrupted PDF: " ++ e,
                    by simp [validate_pdf, hpe, hg, h0, hM, hmm, hext, ho],
                    length_append_pos _ _ (by decide)⟩
                | otherError e =>
                  exact .inl ⟨"PDF validation failed: " ++ e,
                    by simp [validate_pdf, hpe, hg, h0, hM, hmm, hext, ho],
                    length_append_pos _ _ (by decide)⟩
              | ok pdf =>
                by_cases hp : pdf.num_pages = 0
                · exact .inl ⟨"PDF has no pages",
                    by simp [validate_pdf, hpe, hg, h0, hM, hmm, hext, ho, hp], by decide⟩
                · cases hx : pdf.extract_text with
                  | error err =>
                    cases err with
                    | pdfReadError e =>
                      exact .inl ⟨"Corrupted PDF: " ++ e,
                        by simp [validate_pdf, hpe, hg, h0, hM, hmm, hext, ho, hp, hx],
                        length_append_pos _ _ (by decide)⟩
                    | otherError e =>
                      exact .inl ⟨"PDF validation failed: " ++ e,
                        by simp [validate_pdf, hpe, hg, h0, hM, hmm, hext, ho, hp, hx],
                        length_append_pos _ _ (by decide)⟩
                  | ok text =>
                    exact .inr ⟨n, pdf.num_pages, decide (0 < (pyStrip text).length),
                      by simp [validate_pdf, hpe, hg, h0, hM, hmm, hext, ho, hp, hx]⟩
            · exact .inl ⟨"File does not have .pdf extension",
                by simp [validate_pdf, hpe, hg, h0, hM, hmm, hext], by decide⟩

/-- Claim C9 is false as stated: an exception raised by the content sniffer
is caught but is NOT converted into an outcome with `valid = false` — on
`fsMagicFail` the sniffer raises, the fallback extension check accepts
`doc.pdf`, and validation returns `valid = true` with no error at all. -/
theorem C9_counterexample :
    fsMagicFail.magic_mime = Except.error "magic unavailable" ∧
    validate_pdf fsMagicFail "doc.pdf" =
      { valid := true, error := none, file_size := some 100,
        num_pages := some 2, has_text := some true } :=
  ⟨rfl, by decide⟩

/-- Claim C9 (amended): `validate_pdf` never propagates a raised fault and
always returns an outcome; whenever the outcome is invalid its error
message is non-empty (and a valid outcome carries no error); a `getsize`
fault is converted into an invalid outcome; a content-sniffing fault is
instead handled by the extension fallback — when the lowercased path ends
in `.pdf` the outcome is exactly what successful sniffing would give, and
otherwise the outcome is invalid with the extension message. -/
theorem C9_no_fault_propagation (fs : FsEnv) (path : String) :
    ((validate_pdf fs path).valid = false →
       ∃ e, (validate_pdf fs path).error = some e ∧ 0 < e.length) ∧
    ((validate_pdf fs path).valid = true → (validate_pdf fs path).error = none) ∧
    (∀ m, fs.path_exists = true → fs.getsize = .error m →
       validate_pdf fs path =
         { valid := false, error := some ("Validation error: " ++ m) } ∧
       0 < ("Validation error: " ++ m).length) ∧
    (∀ n err, fs.path_exists = true → fs.getsize = .ok n → 0 < n → n ≤ MAX_FILE_SIZE →
       typeCheckPasses fs path → fs.open_result = .error err →
       validate_pdf fs path = { valid := false, error := some (pdfErrMsg err) } ∧
       0 < (pdfErrMsg err).length) ∧
    (∀ n pdf err, fs.path_exists = true → fs.getsize = .ok n → 0 < n → n ≤ MAX_FILE_SIZE →
       typeCheckPasses fs path → fs.open_result = .ok pdf → 0 < pdf.num_pages →
       pdf.extract_text = .error err →
       validate_pdf fs path = { valid := false, error := some (pdfErrMsg err) } ∧
       0 < (pdfErrMsg err).length) ∧
    (∀ m, fs.magic_mime = .error m → endsWithLowerPdf path = true →
       validate_pdf fs path =
         validate_pdf { fs with magic_mime := .ok "application/pdf" } path) ∧
    (∀ n m, fs.path_exists = true → fs.getsize = .ok n → 0 < n → n ≤ MAX_FILE_SIZE →
       fs.magic_mime = .error m → endsWithLowerPdf path = false →
       validate_pdf fs path =
         { valid := false, error := some "File does not have .pdf extension" }) := by
  have hmsg : ∀ err : PyErr, 0 < (pdfErrMsg err).length := by
    intro err
    cases err <;> exact length_append_pos _ _ (by decide)
  refine ⟨?_, ?_, ?_, ?_, ?_, ?_, ?_⟩
  · intro hv
    rcases validate_pdf_shapes fs path with ⟨e, he, hlen⟩ | ⟨n, p, b, hok⟩
    · exact ⟨e, by rw [he], hlen⟩
    · rw [hok] at hv
      simp at hv
  · intro hv
    rcases validate_pdf_shapes fs path with ⟨e, he, hlen⟩ | ⟨n, p, b, hok⟩
    · rw [he] at hv
      simp at hv
    · rw [hok]
  · intro m h hg
    exact ⟨by simp [validate_pdf, h, hg], length_append_pos _ _ (by decide)⟩
  · intro n err h hg h0 hM htc ho
    have h0' : ¬n = 0 := by omega
    have hM' : ¬MAX_FILE_SIZE < n := by omega
    refine ⟨?_, hmsg err⟩
    rcases htc with hok | ⟨m, hm, hext⟩
    · cases err <;> simp [validate_pdf, pdfErrMsg, h, hg, h0', hM', hok, ho]
    · cases err <;> simp [validate_pdf, pdfErrMsg, h, hg, h0', hM', hm, hext, ho]
  · intro n pdf err h hg h0 hM htc ho hp hx
    have h0' : ¬n = 0 := by omega
    have hM' : ¬MAX_FILE_SIZE < n := by omega
    have hp' : ¬pdf.num_pages = 0 := by omega
    refine ⟨?_, hmsg err⟩
    rcases htc with hok | ⟨m, hm, hext⟩
    · cases err <;> simp [validate_pdf, pdfErrMsg, h, hg, h0', hM', hok, ho, hp', hx]
    · cases err <;> simp [validate_pdf, pdfErrMsg, h, hg, h0', hM', hm, hext, ho, hp', hx]
  · intro m hm hext
    simp [validate_pdf, hm, hext]
  · intro n m h hg h0 hM hm hext
    have h0' : ¬n = 0 := by omega
    have hM' : ¬MAX_FILE_SIZE < n := by omega
    simp [validate_pdf, h, hg, h0', hM', hm, hext]

/-- The view `fsOK` with PyPDF2 raising a `PdfReadError` on open. -/
def fsOpenFail : FsEnv := { fsOK with open_result := .error (.pdfReadError "bad xref") }

theorem C9_witness :
    fsMagicFail.magic_mime = Except.error "magic unavailable" ∧
    endsWithLowerPdf "doc.pdf" = true ∧
    validate_pdf fsMagicFail "doc.pdf" =
      validate_pdf { fsMagicFail with magic_mime := .ok "application/pdf" } "doc.pdf" ∧
    (validate_pdf fsOpenFail "doc.pdf" =
       { valid := false, error := some (pdfErrMsg (.pdfReadError "bad xref")) } ∧
     0 < (pdfErrMsg (.pdfReadError "bad xref")).length) :=
  ⟨rfl, by decide,
   (C9_no_fault_propagation fsMagicFail "doc.pdf").2.2.2.2.2.1 "magic unavailable" rfl (by decide),
   (C9_no_fault_propagation fsOpenFail "doc.pdf").2.2.2.1 100 (.pdfReadError "bad xref")
     rfl rfl (by decide) (by decide) (.inl rfl) rfl⟩

/-- Claim C10: the renderer totally handles every aggregate `process_pdf`
produces — it always returns text — and on an aggregate carrying an error
it emits exactly the header (built from `filename` and `processed_at`)
followed by the error line, reading no other field. -/
theorem C10_renderer_total (env : Env) (p f : String) :
    (∃ s, generate_output_text (process_pdf env p f).1 = .ok s) ∧
    (∀ e, (process_pdf env p f).1.error = some e →
       generate_output_text (process_pdf env p f).1 =
         .ok (String.intercalate "\n"
           (headerLines (process_pdf env p f).1 ++ ["ERROR: " ++ e]))) := by
  constructor
  · exact generate_output_text_total _
  · intro e he
    unfold generate_output_text
    rw [generate_output_lines_error _ e he]

theorem C10_witness :
    (process_pdf envTableFault "p/doc.pdf" "doc.pdf").1.error =
      some "Processing failed: boom" ∧
    generate_output_text (process_pdf envTableFault "p/doc.pdf" "doc.pdf").1 =
      Except.ok (String.intercalate "\n"
        (headerLines (process_pdf envTableFault "p/doc.pdf" "doc.pdf").1 ++
         ["ERROR: " ++ "Processing failed: boom"])) :=
  ⟨rfl, (C10_renderer_total envTableFault "p/doc.pdf" "doc.pdf").2
    "Processing failed: boom" rfl⟩

end Pdfp1
